import Mathlib

/-!
Shallow embedding of `apply_watermark.py` (repository gilbus/watermark_script).

The script is a batch orchestrator around the external `pdftk` tool: it
resolves a layered configuration (`load_config`), validates the watermark
file, and for each input document invokes `pdftk` on the document's bytes
(`watermark_document`), expands an output-name template and writes the
stamped bytes.

Modelling conventions:
- file contents are `Bytes` (`List Nat`); the readable part of the file
  system is a partial map `FS` from path strings to contents
  (`none` = missing or unreadable, which the script does not distinguish:
  it only probes with `open()` and catches every exception);
- the external world (tool behaviour, write faults, zenity dialog
  outcomes) is an explicit environment `WEnv`;
- `main` is modelled after argument parsing and configuration resolution:
  `args` is the parsed argument record and `zenity`/`pdftk` are the
  resolved `config` lookups (`which` results or a local override), which
  the source reads directly from `config`;
- `exit(1)` raised inside `show_error_msg` terminates the process: the
  model returns a `RunResult` with exit code 1 at that point; an exception
  that no handler catches is `Exit.crash`;
- Python `string.Template.substitute` and `str.format` are embedded as
  character-level scanners (`scanChars`, `fmtChars`) faithful to their
  delimiter rules (`$$`/`$name`/`$\x7bname\x7d`, and `\x7b\x7b`/`\x7d\x7d`
  escaping with `\x7bfield\x7d` replacement fields); Python reports the
  leftmost offence during scanning while `template_substitute` detects a
  malformed delimiter before a missing key, a difference that only affects
  which of the two errors is reported, not whether expansion fails, and
  both exceptions are caught by the same handler in `main`.
-/

namespace ApplyWatermark

abbrev Bytes := List Nat

abbrev FS := String → Option Bytes

/-- The two brace characters, written via their code points. -/
def lbrace : Char := Char.ofNat 123

def rbrace : Char := Char.ofNat 125

/-! ## Configuration (`default_config`, `load_config`)

`default_config` in the source maps the five keys to `Path` values, the
results of `shutil.which` (a string or `None`) and the template string.
`CVal` distinguishes these three shapes; `Env` carries the location of the
script and the `which` results, from which the defaults are computed. -/

inductive CVal where
  | vpath (s : String)
  | vstr (s : String)
  | vnone
deriving DecidableEq, Repr

structure Env where
  script_dir : String
  zenity_which : Option String
  pdftk_which : Option String

/-- `shutil.which` returns a string or `None`. -/
def whichVal : Option String → CVal
  | some s => .vstr s
  | none => .vnone

/-- The `default_config` dict of the source, as an association list.
`Path(...).absolute()` is modelled as the already-absolute joined string. -/
def default_config (env : Env) : List (String × CVal) :=
  [("output_folder", .vpath (env.script_dir ++ "/out")),
   ("watermark_pdf", .vpath (env.script_dir ++ "/resources/fs_watermark.pdf")),
   ("zenity_path", whichVal env.zenity_which),
   ("pdftk_path", whichVal env.pdftk_which),
   ("output_template", .vstr "${stem}_watermark${suffix}")]

/-- Outcome of reading and parsing `config.toml`, the four cases the
source's `try`/`except` ladder distinguishes: `FileNotFoundError`,
`PermissionError`, a successful parse, and any other exception
(`BaseException`, in practice a TOML parse error). -/
inductive LocalConfigSrc where
  | missing
  | unreadable
  | parsed (entries : List (String × CVal))
  | malformed

/-- Lookup in a `collections.ChainMap`: the first map that has the key
wins. -/
def chainLookup : List (List (String × CVal)) → String → Option CVal
  | [], _ => none
  | m :: ms, k =>
    match m.lookup k with
    | some v => some v
    | none => chainLookup ms k

/-- `load_config`: starts from `ChainMap(default_config)`; a non-empty
parsed local config is pushed as a new child (shadowing the defaults),
an empty, missing or unreadable one is ignored, and any other error
aborts the process (`exit(1)`, the `.error` case). -/
def load_config (env : Env) : LocalConfigSrc → Except Unit (List (List (String × CVal)))
  | .missing => .ok [default_config env]
  | .unreadable => .ok [default_config env]
  | .parsed entries =>
    if entries.isEmpty then .ok [default_config env]
    else .ok [entries, default_config env]
  | .malformed => .error ()

/-- Key lookup through the result of `load_config`. -/
def configLookup (r : Except Unit (List (List (String × CVal)))) (k : String) : Option CVal :=
  match r with
  | .ok maps => chainLookup maps k
  | .error _ => none

/-- Left-biased choice on options (specification-side combinator used to
state the override-shadowing law). -/
def firstSome (a b : Option CVal) : Option CVal :=
  match a with
  | some v => some v
  | none => b

/-- Python `str()` applied to a config value; `str(None) = "None"`. -/
def strOfCVal : CVal → String
  | .vpath s => s
  | .vstr s => s
  | .vnone => "None"

/-- The key-value set printed by `--dump-default-config`:
`\x7bkey: str(value) for key, value in default_config.items()\x7d`.
Note the source dumps `default_config`, not the resolved `config`. -/
def dump_default_config_kv (env : Env) : List (String × String) :=
  (default_config env).map (fun kv => (kv.1, strOfCVal kv.2))

/-- The dump output parsed back by `toml.loads` as an override source:
TOML strings parse back as strings (`.vstr`). -/
def dumpAsOverride (env : Env) : List (String × CVal) :=
  (default_config env).map (fun kv => (kv.1, .vstr (strOfCVal kv.2)))

/-! ## `string.Template.substitute`

Python's default `Template` pattern: `$$` is an escaped dollar, `$name`
and `$\x7bname\x7d` are references with `name` matching
`[_a-zA-Z][_a-zA-Z0-9]*` (ASCII), and any other `$` occurrence makes
`substitute` raise `ValueError`; a reference whose name is not in the
mapping raises `KeyError`. -/

def isIdStart (c : Char) : Bool := c = '_' || c.isAlpha

def isIdChar (c : Char) : Bool := c = '_' || c.isAlpha || c.isDigit

inductive Tok where
  | lit (c : Char)
  | ref (name : String)
deriving DecidableEq, Repr

/-- Scanner state while reading a template left to right. -/
inductive ScanSt where
  | normal
  | dollar
  | named (acc : List Char)
  | bracedStart
  | braced (acc : List Char)

/-- One-pass scan of a template into tokens; `none` models the
`ValueError` raised on an invalid `$` placeholder. -/
def scanChars : ScanSt → List Char → Option (List Tok)
  | .normal, [] => some []
  | .dollar, [] => none
  | .named acc, [] => some [.ref acc.asString]
  | .bracedStart, [] => none
  | .braced _, [] => none
  | .normal, c :: cs =>
    if c = '$' then scanChars .dollar cs
    else (scanChars .normal cs).map (.lit c :: ·)
  | .dollar, c :: cs =>
    if c = '$' then (scanChars .normal cs).map (.lit '$' :: ·)
    else if c = lbrace then scanChars .bracedStart cs
    else if isIdStart c then scanChars (.named [c]) cs
    else none
  | .named acc, c :: cs =>
    if isIdChar c then scanChars (.named (acc ++ [c])) cs
    else if c = '$' then (scanChars .dollar cs).map (.ref acc.asString :: ·)
    else (scanChars .normal cs).map (fun ts => .ref acc.asString :: .lit c :: ts)
  | .bracedStart, c :: cs =>
    if isIdStart c then scanChars (.braced [c]) cs else none
  | .braced acc, c :: cs =>
    if isIdChar c then scanChars (.braced (acc ++ [c])) cs
    else if c = rbrace then (scanChars .normal cs).map (.ref acc.asString :: ·)
    else none

def tokenize (tpl : String) : Option (List Tok) := scanChars .normal tpl.toList

/-- The two exceptions `substitute` can raise, both caught by
`except (KeyError, ValueError)` in `main`. -/
inductive TErr where
  | invalid
  | missing (name : String)
deriving DecidableEq, Repr

def substToks (m : List (String × String)) : List Tok → Except TErr (List Char)
  | [] => .ok []
  | .lit c :: ts => (substToks m ts).map (c :: ·)
  | .ref n :: ts =>
    match m.lookup n with
    | none => .error (.missing n)
    | some v => (substToks m ts).map (v.toList ++ ·)

/-- `Template(tpl).substitute(m)`. -/
def template_substitute (tpl : String) (m : List (String × String)) : Except TErr String :=
  match tokenize tpl with
  | none => .error .invalid
  | some ts => (substToks m ts).map List.asString

/-- The placeholder names a tokenized template references. -/
def refNames (ts : List Tok) : List String :=
  ts.filterMap (fun t => match t with | .ref n => some n | .lit _ => none)

/-! ## `str.format`

Needed for the error-message templates: `\x7b\x7b` and `\x7d\x7d` are
escaped braces, `\x7bfield\x7d` is a replacement field looked up in the
keyword arguments, a lone brace is an error (`none`). An empty field
(auto-numbered positional) is modelled as a lookup of `""`. -/

inductive FmtSt where
  | normal
  | sawL
  | sawR
  | field (acc : List Char)

def fmtChars (m : List (String × String)) : FmtSt → List Char → Option (List Char)
  | .normal, [] => some []
  | .sawL, [] => none
  | .sawR, [] => none
  | .field _, [] => none
  | .normal, c :: cs =>
    if c = lbrace then fmtChars m .sawL cs
    else if c = rbrace then fmtChars m .sawR cs
    else (fmtChars m .normal cs).map (c :: ·)
  | .sawL, c :: cs =>
    if c = lbrace then (fmtChars m .normal cs).map (lbrace :: ·)
    else if c = rbrace then
      match m.lookup "" with
      | none => none
      | some v => (fmtChars m .normal cs).map (v.toList ++ ·)
    else fmtChars m (.field [c]) cs
  | .sawR, c :: cs =>
    if c = rbrace then (fmtChars m .normal cs).map (rbrace :: ·) else none
  | .field acc, c :: cs =>
    if c = rbrace then
      match m.lookup acc.asString with
      | none => none
      | some v => (fmtChars m .normal cs).map (v.toList ++ ·)
    else if c = lbrace then none
    else fmtChars m (.field (acc ++ [c])) cs

def pyFormat (m : List (String × String)) (tpl : String) : Option String :=
  (fmtChars m .normal tpl.toList).map List.asString

/-- The `PDFTK_UNKNOWN_ERROR` message template, verbatim from the source:
its braces are doubled (`\x7b\x7berror\x7d\x7d`), so `str.format` leaves
the literal text `\x7berror\x7d` and interpolates nothing. -/
def PDFTK_UNKNOWN_ERROR : String :=
  "Es ist ein unbekannter Fehler aufgetreten:\n<span foreground=\x27red\x27>\x7b\x7berror\x7d\x7d</span>"

/-- `str(e)` for `e : CalledProcessError` (CPython renders the command and
the exit status; the captured stderr is not part of it). -/
def cpe_str (cmd : List String) (code : Nat) : String :=
  "Command " ++ toString cmd ++ " returned non-zero exit status " ++ toString code ++ "."

/-- `e.args` for `e : CalledProcessError`, rendered as a tuple string; the
message template has no `cmd` field, so this argument is never used. -/
def cpe_args_str (cmd : List String) (code : Nat) : String :=
  "(" ++ toString code ++ ", " ++ toString cmd ++ ")"

/-- `PDFTK_UNKNOWN_ERROR.format(error=e, cmd=e.args)` as executed at the
`except CalledProcessError` site of `main`. -/
def renderPdftkUnknown (e c : String) : String :=
  (pyFormat [("error", e), ("cmd", c)] PDFTK_UNKNOWN_ERROR).getD ""

/-! ## `pathlib` stem and suffix -/

/-- Split a character list at every occurrence of `sep` (Python
`str.split` with a one-character separator). -/
def splitOnChar (sep : Char) : List Char → List (List Char)
  | [] => [[]]
  | c :: cs =>
    if c = sep then [] :: splitOnChar sep cs
    else
      match splitOnChar sep cs with
      | h :: t => (c :: h) :: t
      | [] => [[c]]

/-- Final path component (`Path(p).name`; the inputs used here have no
trailing separator, where `pathlib` would additionally normalize). -/
def pathName (p : String) : String :=
  ((splitOnChar '/' p.toList).map List.asString).getLastD ""

/-- Index of the last dot of a name, if any. -/
def lastDotIdx (cs : List Char) : Option Nat :=
  ((List.range cs.length).filter (fun i => cs.getD i ' ' = '.')).getLast?

/-- `(stem, suffix)` of a file name: the suffix starts at the last dot,
provided that dot is neither the first nor the last character. -/
def splitName (name : String) : String × String :=
  let cs := name.toList
  match lastDotIdx cs with
  | some i =>
    if 0 < i ∧ i + 1 < cs.length then ((cs.take i).asString, (cs.drop i).asString)
    else (name, "")
  | none => (name, "")

def stemOf (p : String) : String := (splitName (pathName p)).1

def suffixOf (p : String) : String := (splitName (pathName p)).2

/-! ## `watermark_document` -/

structure ToolRun where
  exitCode : Nat
  stdout : Bytes
  stderr : Bytes
deriving DecidableEq, Repr

/-- Outcome of `subprocess.run`: either the process launched and
terminated with some exit code and captured streams, or the launch itself
raised an `OSError` (tool vanished, permission denied). -/
inductive LaunchOutcome where
  | launched (r : ToolRun)
  | oserror
deriving DecidableEq, Repr

/-- Behaviour of the external world on a subprocess invocation, as a
function of the argument vector and the bytes supplied on stdin. -/
abbrev Tool := List String → Bytes → LaunchOutcome

/-- The exact argument vector built in `watermark_document`:
`[pdftk, "-", "stamp", str(watermark), "output", "-"]`. -/
def pdftk_cmd (pdftk watermark : String) : List String :=
  [pdftk, "-", "stamp", watermark, "output", "-"]

/-- Outcome of one `watermark_document` call as observed by `main`:
`valueError` and `calledProcessError` are caught there, `uncaught`
exceptions (a `TypeError` from `run([None, ...])` when the tool path is
`None`, or an `OSError` from a failed launch) are not. -/
inductive JobOutcome where
  | ok (stamped : Bytes)
  | valueError
  | calledProcessError (cmd : List String) (stderr : Bytes) (code : Nat)
  | uncaught (exc : String)
deriving DecidableEq, Repr

/-- `watermark_document(document, watermark, pdftk)`: probes the document
with `open()` (any failure is re-raised as `ValueError`), then runs
`[pdftk, "-", "stamp", str(watermark), "output", "-"]` with the document's
bytes on stdin and `check=True`; exit status zero returns the captured
stdout, a non-zero status raises `CalledProcessError`. The `pdftk`
parameter is annotated `str` in the source but `main` can pass `None`. -/
def watermark_document (fs : FS) (tool : Tool) (document watermark : String)
    (pdftk : Option String) : JobOutcome :=
  match fs document with
  | none => .valueError
  | some docBytes =>
    match pdftk with
    | none => .uncaught "TypeError"
    | some p =>
      match tool (pdftk_cmd p watermark) docBytes with
      | .oserror => .uncaught "OSError"
      | .launched r =>
        if r.exitCode = 0 then .ok r.stdout
        else .calledProcessError (pdftk_cmd p watermark) r.stderr r.exitCode

/-! ## `main` -/

/-- The parsed argument record (`argparse` result). -/
structure Args where
  file : List String
  watermark : String
  output_folder : String
  output_template : String
  gui : Bool
  dump_default_config : Bool

/-- Fault model for `with open(path, "wb") as f: f.write(bytes)`:
opening may fail (nothing written), or the write may fail after `k` bytes
were flushed — `open("wb")` has already truncated the file, so the
truncated prefix persists. -/
inductive WriteOutcome where
  | ok
  | openFail
  | writeFail (flushed : Nat)
deriving DecidableEq, Repr

/-- Outcome of the zenity file-selection dialog: `cancelled` models the
`CalledProcessError` (window closed without selection), `selected` carries
the captured stdout. -/
inductive GuiSel where
  | cancelled
  | selected (stdout : String)

/-- The external world of one run. -/
structure WEnv where
  fs : FS
  tool : Tool
  write : String → WriteOutcome
  guiInfoClosed : Bool
  guiSel : GuiSel

/-- The user-visible messages `main` can emit, one constructor per
`print`/zenity site. -/
inductive Msg where
  | dumpConfig (kv : List (String × String))
  | zenityNotInstalled
  | usage
  | pdftkNotInstalled
  | watermarkError
  | guiCancelled
  | pdfInputError (file : String)
  | pdftkUnknownError (rendered : String)
  | outputTemplateError (tpl : String)
  | fileSaveError (path : String)
  | success (path : String)
deriving DecidableEq, Repr

/-- How the process ended: `exit(n)`/`return n`, or an uncaught
exception. -/
inductive Exit where
  | code (n : Nat)
  | crash (exc : String)
deriving DecidableEq, Repr

structure RunResult where
  exit : Exit
  fs : FS
  msgs : List Msg

def updateFS (fs : FS) (p : String) (b : Bytes) : FS :=
  fun q => if q = p then some b else fs q

/-- `Path(args.output_folder / expanded_name)`. -/
def outPath (args : Args) (name : String) : String :=
  args.output_folder ++ "/" ++ name

/-- The substitution mapping built per document:
`\x7b"stem": file.stem, "suffix": file.suffix\x7d`. -/
def tmplParams (f : String) : List (String × String) :=
  [("stem", stemOf f), ("suffix", suffixOf f)]

/-- The `for file in args.file` loop of `main`. Every handler calls
`show_error_msg`, which prints the message and then calls `exit(1)`, so
each failure terminates the whole process; only the success path
continues with the next document. -/
def processFiles (pdftk : Option String) (args : Args) (w : WEnv) :
    List String → FS → List Msg → RunResult
  | [], fs, msgs => ⟨.code 0, fs, msgs⟩
  | f :: rest, fs, msgs =>
    match watermark_document fs w.tool f args.watermark pdftk with
    | .valueError => ⟨.code 1, fs, msgs ++ [.pdfInputError f]⟩
    | .uncaught exc => ⟨.crash exc, fs, msgs⟩
    | .calledProcessError cmd _ code =>
      ⟨.code 1, fs,
        msgs ++ [.pdftkUnknownError (renderPdftkUnknown (cpe_str cmd code) (cpe_args_str cmd code))]⟩
    | .ok signed =>
      match template_substitute args.output_template (tmplParams f) with
      | .error _ => ⟨.code 1, fs, msgs ++ [.outputTemplateError args.output_template]⟩
      | .ok name =>
        match w.write (outPath args name) with
        | .ok =>
          processFiles pdftk args w rest (updateFS fs (outPath args name) signed)
            (msgs ++ [.success (outPath args name)])
        | .openFail => ⟨.code 1, fs, msgs ++ [.fileSaveError (outPath args name)]⟩
        | .writeFail k =>
          ⟨.code 1, updateFS fs (outPath args name) (signed.take k),
            msgs ++ [.fileSaveError (outPath args name)]⟩

/-- `stdout.replace("\n", "").split("|")` on the zenity selection:
deleting every newline, then splitting at each pipe. -/
def guiFiles (s : String) : List String :=
  (splitOnChar '|' (s.toList.filter (fun c => c ≠ '\n'))).map List.asString

/-- `main` from the watermark check onwards: probe the watermark with
`open()` (failure: `show_error_msg` prints and exits 1), in GUI mode
replace the file list by the zenity selection (cancel returns 0), then
run the batch loop. -/
def afterPdftkCheck (args : Args) (pdftk : Option String) (w : WEnv)
    (msgs : List Msg) : RunResult :=
  match w.fs args.watermark with
  | none => ⟨.code 1, w.fs, msgs ++ [.watermarkError]⟩
  | some _ =>
    if args.gui then
      match w.guiSel with
      | .cancelled => ⟨.code 0, w.fs, msgs ++ [.guiCancelled]⟩
      | .selected s => processFiles pdftk args w (guiFiles s) w.fs msgs
    else processFiles pdftk args w args.file w.fs msgs

/-- The `if not config["pdftk_path"]` check of `main`: in CLI mode the
message is printed and `main` returns 1; in GUI mode the zenity error
dialog is shown but the source has no `return`, so execution falls
through and the run continues with `pdftk_path = None`. -/
def afterGate (args : Args) (pdftk : Option String) (w : WEnv) : RunResult :=
  match pdftk with
  | none =>
    if args.gui then afterPdftkCheck args none w [.pdftkNotInstalled]
    else ⟨.code 1, w.fs, [.pdftkNotInstalled]⟩
  | some _ => afterPdftkCheck args pdftk w []

/-- `main`, from after argument parsing: dump-config and GUI-intro/usage
gates, then the pdftk check, watermark check and batch loop. `zenity` and
`pdftk` are the resolved `config["zenity_path"]`/`config["pdftk_path"]`
values; `cenv` determines `default_config` for the dump branch. -/
def main (cenv : Env) (args : Args) (zenity pdftk : Option String) (w : WEnv) : RunResult :=
  if args.dump_default_config then
    ⟨.code 0, w.fs, [.dumpConfig (dump_default_config_kv cenv)]⟩
  else if args.gui then
    match zenity with
    | none => ⟨.code 1, w.fs, [.zenityNotInstalled]⟩
    | some _ =>
      if w.guiInfoClosed then ⟨.code 0, w.fs, []⟩
      else afterGate args pdftk w
  else if args.file.isEmpty then ⟨.code 0, w.fs, [.usage]⟩
  else afterGate args pdftk w

/-- Helper for building concrete file systems in examples. -/
def fsOf (l : List (String × Bytes)) : FS := fun p => l.lookup p

/-- Is a message the success confirmation? -/
def isSuccessMsg : Msg → Bool
  | .success _ => true
  | _ => false

end ApplyWatermark

namespace ApplyWatermark

/-! ## Helper lemmas -/

lemma chainLookup_singleton (m : List (String × CVal)) (k : String) :
    chainLookup [m] k = m.lookup k := by
  cases h : m.lookup k <;> simp [chainLookup, h]

lemma chainLookup_pair (a b : List (String × CVal)) (k : String) :
    chainLookup [a, b] k = firstSome (a.lookup k) (b.lookup k) := by
  cases h : a.lookup k <;> cases hb : b.lookup k <;>
    simp [chainLookup, firstSome, h, hb]

lemma lookup_map_val (f : CVal → CVal) (l : List (String × CVal)) (k : String) :
    (l.map (fun kv => (kv.1, f kv.2))).lookup k = (l.lookup k).map f := by
  induction l with
  | nil => simp
  | cons a t ih =>
    obtain ⟨a1, a2⟩ := a
    by_cases h : k = a1
    · have hb : (k == a1) = true := beq_iff_eq.mpr h
      simp [List.lookup, hb]
    · have hb : (k == a1) = false := beq_eq_false_iff_ne.mpr h
      simp [List.lookup, hb, ih]

/-! ## C5 -/

/-- C5: configuration resolution obeys the override-shadowing law — for
every key, a key present in the parsed override wins, otherwise the
default applies; an empty, missing or unreadable override source leaves
the configuration equal to the defaults exactly; and every required key
is present in the defaults. -/
theorem c5_override_shadowing (env : Env) (O : List (String × CVal)) (k : String) :
    configLookup (load_config env (.parsed O)) k
      = firstSome (O.lookup k) ((default_config env).lookup k)
    ∧ load_config env (.parsed []) = .ok [default_config env]
    ∧ load_config env .missing = .ok [default_config env]
    ∧ load_config env .unreadable = .ok [default_config env]
    ∧ (k ∈ ["output_folder", "watermark_pdf", "zenity_path", "pdftk_path", "output_template"] →
        (chainLookup [default_config env] k).isSome = true) := by
  refine ⟨?_, rfl, rfl, rfl, ?_⟩
  · cases O with
    | nil => simp [load_config, configLookup, chainLookup_singleton, firstSome]
    | cons o os =>
      simp [load_config, configLookup, chainLookup_pair]
  · intro hk
    fin_cases hk <;>
      simp [chainLookup_singleton, default_config, List.lookup, whichVal]

/-- Witness for C5 at a concrete environment and override. -/
theorem c5_override_shadowing_witness :
    "pdftk_path" ∈ ["output_folder", "watermark_pdf", "zenity_path", "pdftk_path", "output_template"]
    ∧ (chainLookup [default_config ⟨"/s", some "/z", none⟩] "pdftk_path").isSome = true
    ∧ configLookup (load_config ⟨"/s", some "/z", none⟩ (.parsed [("output_template", .vstr "X")])) "pdftk_path"
        = firstSome (List.lookup "pdftk_path" [("output_template", .vstr "X")])
            ((default_config ⟨"/s", some "/z", none⟩).lookup "pdftk_path") :=
  ⟨by decide,
   (c5_override_shadowing ⟨"/s", some "/z", none⟩ [("output_template", .vstr "X")] "pdftk_path").2.2.2.2
     (by decide),
   (c5_override_shadowing ⟨"/s", some "/z", none⟩ [("output_template", .vstr "X")] "pdftk_path").1⟩

/-! ## C6 -/

/-- C6: `watermark_document` invokes the tool exactly as
`[pdftk, "-", "stamp", watermark, "output", "-"]` with the document's
bytes on standard input — its result depends on the tool only through
that one invocation — and on exit status zero the job's result is the
full captured stdout; the readability probe of the source precedes the
invocation, and its failure yields the source-access error (`ValueError`)
for every tool behaviour, i.e. without invoking the tool. -/
theorem c6_tool_invocation (fs : FS) (tool : Tool) (doc wm pk : String) :
    (∀ b r, fs doc = some b → tool (pdftk_cmd pk wm) b = .launched r → r.exitCode = 0 →
      watermark_document fs tool doc wm (some pk) = .ok r.stdout)
    ∧ (∀ anyTool : Tool, fs doc = none →
      watermark_document fs anyTool doc wm (some pk) = .valueError)
    ∧ (∀ tool2 : Tool, ∀ b, fs doc = some b →
      tool (pdftk_cmd pk wm) b = tool2 (pdftk_cmd pk wm) b →
      watermark_document fs tool doc wm (some pk) = watermark_document fs tool2 doc wm (some pk)) := by
  refine ⟨?_, ?_, ?_⟩
  · intro b r hb ht h0
    simp [watermark_document, hb, ht, h0]
  · intro t hb
    simp [watermark_document, hb]
  · intro t2 b hb he
    simp [watermark_document, hb, he]

/-- Witness for C6: a concrete readable document and a tool that exits 0. -/
theorem c6_tool_invocation_witness :
    watermark_document (fsOf [("a.pdf", [1, 2])]) (fun _ b => .launched ⟨0, b ++ [7], []⟩)
      "a.pdf" "wm.pdf" (some "pdftk") = .ok ([1, 2] ++ [7]) :=
  (c6_tool_invocation (fsOf [("a.pdf", [1, 2])]) (fun _ b => .launched ⟨0, b ++ [7], []⟩)
      "a.pdf" "wm.pdf" "pdftk").1 [1, 2] ⟨0, [1, 2] ++ [7], []⟩ (by decide) rfl rfl

/-! ## C7 -/

/-- C7 counterexample: with pdftk absent and no local override, the
resolved configuration has `pdftk_path = None`, but the dump output fed
back as an override yields the string `"None"` — a different value; and
with a local override present, the dump (which prints `default_config`
only) does not reproduce the resolved `output_template`. -/
theorem c7_counterexample :
    configLookup
        (load_config ⟨"/s", some "/z", none⟩ (.parsed (dumpAsOverride ⟨"/s", some "/z", none⟩)))
        "pdftk_path" = some (.vstr "None")
    ∧ configLookup (load_config ⟨"/s", some "/z", none⟩ .missing) "pdftk_path" = some .vnone
    ∧ CVal.vstr "None" ≠ CVal.vnone
    ∧ configLookup
        (load_config ⟨"/s", some "/z", none⟩ (.parsed [("output_template", .vstr "X")]))
        "output_template" = some (.vstr "X")
    ∧ (dump_default_config_kv ⟨"/s", some "/z", none⟩).lookup "output_template"
        = some "${stem}_watermark${suffix}"
    ∧ ("X" : String) ≠ "${stem}_watermark${suffix}" := by
  refine ⟨by decide, by decide, by decide, by decide, by decide, by decide⟩

/-- C7 amended: the dump prints the stringified built-in defaults
(ignoring any local override); fed back as an override source it
resolves, for every key, to the `str()` form of that key's default. -/
theorem c7_dump_roundtrip_stringified (env : Env) (k : String) :
    load_config env (.parsed (dumpAsOverride env)) = .ok [dumpAsOverride env, default_config env]
    ∧ configLookup (load_config env (.parsed (dumpAsOverride env))) k
        = ((default_config env).lookup k).map (fun v => .vstr (strOfCVal v)) := by
  constructor
  · rfl
  · have h2 : (dumpAsOverride env).lookup k
        = ((default_config env).lookup k).map (fun v => CVal.vstr (strOfCVal v)) :=
      lookup_map_val (fun v => CVal.vstr (strOfCVal v)) (default_config env) k
    have h1 : configLookup (load_config env (.parsed (dumpAsOverride env))) k
        = chainLookup [dumpAsOverride env, default_config env] k := rfl
    rw [h1, chainLookup_pair, h2]
    cases h : (default_config env).lookup k <;> simp [firstSome]

/-! ## C8 -/

/-- C8: invoked with zero positional documents, no GUI flag and no dump
flag, `main` prints the usage text and exits with status zero without
writing any file, whatever the environment (tool present or not,
watermark readable or not). -/
theorem c8_no_args_prints_usage (cenv : Env) (wm ofld tpl : String)
    (zenity pdftk : Option String) (w : WEnv) :
    main cenv ⟨[], wm, ofld, tpl, false, false⟩ zenity pdftk w = ⟨.code 0, w.fs, [.usage]⟩ := rfl

end ApplyWatermark

namespace ApplyWatermark

/-! ## Concrete scenarios used by witnesses and counterexamples -/

def env0 : Env := ⟨"/s", some "/z", none⟩

def toolOk : Tool := fun _ b => .launched ⟨0, b ++ [7], []⟩

def toolFailOn (bad : Bytes) : Tool := fun _ b =>
  if b = bad then .launched ⟨1, [], [5]⟩ else .launched ⟨0, b ++ [7], []⟩

def writeAllOk : String → WriteOutcome := fun _ => .ok

def fsDocs : FS := fsOf [("a.pdf", [1]), ("b.pdf", [2]), ("wm.pdf", [9])]

/-! ## C4 -/

lemma substToks_missing (m : List (String × String)) (ts : List Tok) (n : String)
    (hn : n ∈ refNames ts) (hm : m.lookup n = none) :
    ∃ e, substToks m ts = .error e := by
  induction ts with
  | nil => simp [refNames] at hn
  | cons t ts ih =>
    cases t with
    | lit c =>
      have hn' : n ∈ refNames ts := by simpa [refNames] using hn
      obtain ⟨e, he⟩ := ih hn'
      exact ⟨e, by simp [substToks, he, Except.map]⟩
    | ref n' =>
      by_cases h : n' = n
      · subst h
        exact ⟨.missing n', by simp [substToks, hm]⟩
      · have hn' : n ∈ refNames ts := by
          simp [refNames] at hn
          rcases hn with h1 | h1
          · exact absurd h1.symm h
          · simpa [refNames] using h1
        cases hl : m.lookup n' with
        | none => exact ⟨.missing n', by simp [substToks, hl]⟩
        | some v =>
          obtain ⟨e, he⟩ := ih hn'
          exact ⟨e, by simp [substToks, hl, he, Except.map]⟩

def c4args : Args := ⟨["a.pdf", "b.pdf"], "wm.pdf", "out", "${foo}_x", false, false⟩

def c4w : WEnv := ⟨fsDocs, toolOk, writeAllOk, false, .cancelled⟩

/-- C4 counterexample: with an unknown-placeholder template and two
readable documents, the template error on the first document terminates
the process (`show_error_msg` calls `exit(1)`): the run emits a single
template-error message — the second document is never reported — so the
error is fatal to the rest of the batch, contrary to the claim. -/
theorem c4_counterexample :
    (main env0 c4args (some "/z") (some "pdftk") c4w).exit = .code 1
    ∧ (main env0 c4args (some "/z") (some "pdftk") c4w).msgs
        = [.outputTemplateError "${foo}_x"]
    ∧ c4args.file.length = 2 := ⟨rfl, rfl, rfl⟩

/-- C4 amended: template expansion with the per-document mapping
`stem`/`suffix` always fails — with a `ValueError` on an invalid
placeholder, with a `KeyError` on any other placeholder name — and never
produces a partial path; but the resulting template error is fatal: the
job's handler exits the process, so the remaining documents of the batch
are not processed. -/
theorem c4_unknown_placeholder_fatal (tpl s x n : String) (ts : List Tok) :
    (tokenize tpl = none → template_substitute tpl [("stem", s), ("suffix", x)] = .error .invalid)
    ∧ (tokenize tpl = some ts → n ∈ refNames ts → n ≠ "stem" → n ≠ "suffix" →
        ∃ e, template_substitute tpl [("stem", s), ("suffix", x)] = .error e)
    ∧ (∀ (pdftk : Option String) (args : Args) (w : WEnv) (f : String) (rest : List String)
        (fs : FS) (msgs : List Msg) (signed : Bytes) (e : TErr),
        watermark_document fs w.tool f args.watermark pdftk = .ok signed →
        template_substitute args.output_template (tmplParams f) = .error e →
        processFiles pdftk args w (f :: rest) fs msgs
          = ⟨.code 1, fs, msgs ++ [.outputTemplateError args.output_template]⟩) := by
  refine ⟨?_, ?_, ?_⟩
  · intro ht
    simp [template_substitute, ht]
  · intro ht hn h1 h2
    have hm : (List.lookup n [("stem", s), ("suffix", x)]) = none := by
      have b1 : (n == "stem") = false := beq_eq_false_iff_ne.mpr h1
      have b2 : (n == "suffix") = false := beq_eq_false_iff_ne.mpr h2
      simp [List.lookup, b1, b2]
    obtain ⟨e, he⟩ := substToks_missing [("stem", s), ("suffix", x)] ts n hn hm
    exact ⟨e, by simp [template_substitute, ht, he, Except.map]⟩
  · intro pdftk args w f rest fs msgs signed e hw hs
    simp [processFiles, hw, hs]

/-- Witness for C4 at the concrete template of the counterexample. -/
theorem c4_unknown_placeholder_fatal_witness :
    (∃ e, template_substitute "${foo}_x" [("stem", "a"), ("suffix", ".pdf")] = .error e)
    ∧ processFiles (some "pdftk") c4args c4w ["a.pdf", "b.pdf"] fsDocs []
        = ⟨.code 1, fsDocs, [.outputTemplateError "${foo}_x"]⟩ :=
  ⟨(c4_unknown_placeholder_fatal "${foo}_x" "a" ".pdf" "foo"
      [.ref "foo", .lit '_', .lit 'x']).2.1 rfl (by decide) (by decide) (by decide),
   (c4_unknown_placeholder_fatal "${foo}_x" "a" ".pdf" "foo"
      [.ref "foo", .lit '_', .lit 'x']).2.2 (some "pdftk") c4args c4w "a.pdf" ["b.pdf"]
      fsDocs [] [1, 7] (.missing "foo") rfl rfl⟩

end ApplyWatermark

namespace ApplyWatermark

/-! ## C1 -/

def c1args : Args := ⟨["a.pdf", "b.pdf"], "wm.pdf", "out", "${stem}_watermark${suffix}", false, false⟩

def c1w : WEnv := ⟨fsDocs, toolFailOn [1], writeAllOk, false, .cancelled⟩

/-- C1 counterexample: a batch of N = 2 readable documents whose single
tool-invocation failure hits the first document yields 0 written output
files, not N − 1 = 1: the failure handler exits the process and the
second document is never processed (its output path stays absent). -/
theorem c1_counterexample :
    (main env0 c1args (some "/z") (some "pdftk") c1w).exit = .code 1
    ∧ (main env0 c1args (some "/z") (some "pdftk") c1w).msgs.countP isSuccessMsg = 0
    ∧ c1args.file.length - 1 = 1
    ∧ (main env0 c1args (some "/z") (some "pdftk") c1w).fs "out/b_watermark.pdf" = none :=
  ⟨rfl, rfl, rfl, rfl⟩

/-- C1 amended: a tool-invocation failure halts the batch — the handler's
`show_error_msg` exits the process with status 1 after reporting the one
failure, leaving the file system as it was before the failing job and
processing none of the remaining documents (documents before the failing
one keep their written outputs). -/
theorem c1_batch_halts_on_failure (pdftk : Option String) (args : Args) (w : WEnv)
    (f : String) (rest : List String) (fs : FS) (msgs : List Msg)
    (cmd : List String) (se : Bytes) (code : Nat)
    (hw : watermark_document fs w.tool f args.watermark pdftk = .calledProcessError cmd se code) :
    processFiles pdftk args w (f :: rest) fs msgs
      = ⟨.code 1, fs,
          msgs ++ [.pdftkUnknownError
            (renderPdftkUnknown (cpe_str cmd code) (cpe_args_str cmd code))]⟩ := by
  simp [processFiles, hw]

/-- Witness for C1 on the concrete two-document batch. -/
theorem c1_batch_halts_on_failure_witness :
    processFiles (some "pdftk") c1args c1w ["a.pdf", "b.pdf"] fsDocs []
      = ⟨.code 1, fsDocs,
          [.pdftkUnknownError (renderPdftkUnknown (cpe_str (pdftk_cmd "pdftk" "wm.pdf") 1)
            (cpe_args_str (pdftk_cmd "pdftk" "wm.pdf") 1))]⟩ :=
  c1_batch_halts_on_failure (some "pdftk") c1args c1w "a.pdf" ["b.pdf"] fsDocs []
    (pdftk_cmd "pdftk" "wm.pdf") [5] 1 rfl

/-! ## C2 -/

def c2args : Args := ⟨[], "wm.pdf", "out", "${stem}_watermark${suffix}", true, false⟩

def c2cliArgs : Args := ⟨["a.pdf"], "wm.pdf", "out", "${stem}_watermark${suffix}", false, false⟩

def c2w : WEnv := ⟨fsOf [("wm.pdf", [9])], toolOk, writeAllOk, false, .selected "x.pdf"⟩

/-- C2: with the stamping tool unresolvable, the command-line run reports
the condition once and returns 1 before any job; but in graphical mode
the `if not config["pdftk_path"]` branch only shows the dialog and has no
`return`, so the run continues — the watermark check, the file selection
and the batch loop all execute, and a per-document error is reported
after the tool-missing message, contradicting "without attempting any
Document Job ... in both command-line and graphical mode". -/
theorem c2_gui_run_continues_without_tool :
    (main env0 c2args (some "/z") none c2w).msgs
      = [.pdftkNotInstalled, .pdfInputError "x.pdf"]
    ∧ (main env0 c2args (some "/z") none c2w).exit = .code 1
    ∧ (main env0 c2cliArgs (some "/z") none c2w).msgs = [.pdftkNotInstalled]
    ∧ (main env0 c2cliArgs (some "/z") none c2w).exit = .code 1 :=
  ⟨rfl, rfl, rfl, rfl⟩

/-! ## C3 -/

def c3args : Args := ⟨["a.pdf"], "wm.pdf", "out", "${stem}_watermark${suffix}", false, false⟩

def c3w : WEnv := ⟨fsOf [("a.pdf", [1]), ("wm.pdf", [9])], fun _ _ => .oserror, writeAllOk,
  false, .cancelled⟩

set_option maxRecDepth 8000 in
/-- C3: at a concrete tool failure (exit status 1, stderr
"Error: bad pdf", argument vector `pdftk - stamp wm.pdf output -`), the
message actually reported is the brace-escaped `PDFTK_UNKNOWN_ERROR`
literal: it contains the placeholder text `\x7berror\x7d` and neither the
argument vector nor the captured stderr (the prepared `PDFTK_CALL_ERROR`
template with both fields is never used, and the `cmd=` argument has no
matching field). Moreover a launch failure (`OSError`) is not caught by
the job-boundary handlers (`ValueError`, `CalledProcessError` only): the
run crashes with no reported message at all. -/
theorem c3_reported_error_lacks_detail :
    renderPdftkUnknown (cpe_str (pdftk_cmd "pdftk" "wm.pdf") 1)
        (cpe_args_str (pdftk_cmd "pdftk" "wm.pdf") 1)
      = "Es ist ein unbekannter Fehler aufgetreten:\n<span foreground=\x27red\x27>\x7berror\x7d</span>"
    ∧ ¬ List.IsInfix "stamp".toList
        (renderPdftkUnknown (cpe_str (pdftk_cmd "pdftk" "wm.pdf") 1)
          (cpe_args_str (pdftk_cmd "pdftk" "wm.pdf") 1)).toList
    ∧ ¬ List.IsInfix "pdftk".toList
        (renderPdftkUnknown (cpe_str (pdftk_cmd "pdftk" "wm.pdf") 1)
          (cpe_args_str (pdftk_cmd "pdftk" "wm.pdf") 1)).toList
    ∧ ¬ List.IsInfix "Error: bad pdf".toList
        (renderPdftkUnknown (cpe_str (pdftk_cmd "pdftk" "wm.pdf") 1)
          (cpe_args_str (pdftk_cmd "pdftk" "wm.pdf") 1)).toList
    ∧ (main env0 c3args (some "/z") (some "pdftk") c3w).exit = .crash "OSError"
    ∧ (main env0 c3args (some "/z") (some "pdftk") c3w).msgs = [] := by
  refine ⟨rfl, by decide, by decide, by decide, rfl, rfl⟩

/-! ## C9 -/

/-- C9 amended: each Document Job that reaches the write stage ends in a
written output plus a success message, or in exactly one reported failure
— but on failure the state at the output path is unchanged only when the
`open` itself failed; a failure during writing leaves the truncated
prefix of the flushed bytes at the output path (the source opens with
mode `"wb"` and writes in place, with no temporary file or rename). -/
theorem c9_write_failure_behavior (pdftk : Option String) (args : Args) (w : WEnv)
    (f : String) (rest : List String) (fs : FS) (msgs : List Msg)
    (signed : Bytes) (name : String)
    (hw : watermark_document fs w.tool f args.watermark pdftk = .ok signed)
    (hs : template_substitute args.output_template (tmplParams f) = .ok name) :
    (w.write (outPath args name) = .openFail →
      processFiles pdftk args w (f :: rest) fs msgs
        = ⟨.code 1, fs, msgs ++ [.fileSaveError (outPath args name)]⟩)
    ∧ (∀ k, w.write (outPath args name) = .writeFail k →
      processFiles pdftk args w (f :: rest) fs msgs
        = ⟨.code 1, updateFS fs (outPath args name) (signed.take k),
            msgs ++ [.fileSaveError (outPath args name)]⟩)
    ∧ (w.write (outPath args name) = .ok →
      processFiles pdftk args w (f :: rest) fs msgs
        = processFiles pdftk args w rest (updateFS fs (outPath args name) signed)
            (msgs ++ [.success (outPath args name)])) := by
  refine ⟨?_, ?_, ?_⟩
  · intro hwr
    simp [processFiles, hw, hs, hwr]
  · intro k hwr
    simp [processFiles, hw, hs, hwr]
  · intro hwr
    simp [processFiles, hw, hs, hwr]

def c9args : Args := ⟨["a.pdf"], "wm.pdf", "out", "${stem}_watermark${suffix}", false, false⟩

def c9fs : FS := fsOf [("a.pdf", [1]), ("wm.pdf", [9]), ("out/a_watermark.pdf", [3, 4, 5])]

def c9w : WEnv := ⟨c9fs, toolOk, fun _ => .writeFail 1, false, .cancelled⟩

/-- Witness for C9: the concrete mid-write failure after one flushed
byte. -/
theorem c9_write_failure_behavior_witness :
    processFiles (some "pdftk") c9args c9w ["a.pdf"] c9fs []
      = ⟨.code 1, updateFS c9fs "out/a_watermark.pdf" ([1, 7].take 1),
          [.fileSaveError "out/a_watermark.pdf"]⟩ :=
  (c9_write_failure_behavior (some "pdftk") c9args c9w "a.pdf" [] c9fs [] [1, 7]
      "a_watermark.pdf" rfl rfl).2.1 1 rfl

/-- C9 counterexample: a write failure after one flushed byte replaces
the previous content `[3, 4, 5]` of the output path with the partial
content `[1]` — a half-written output file persists and the state is not
unchanged on error, contrary to the claim. -/
theorem c9_counterexample :
    (main env0 c9args (some "/z") (some "pdftk") c9w).exit = .code 1
    ∧ (main env0 c9args (some "/z") (some "pdftk") c9w).msgs
        = [.fileSaveError "out/a_watermark.pdf"]
    ∧ (main env0 c9args (some "/z") (some "pdftk") c9w).fs "out/a_watermark.pdf" = some [1]
    ∧ c9fs "out/a_watermark.pdf" = some [3, 4, 5] := ⟨rfl, rfl, rfl, rfl⟩

end ApplyWatermark

namespace ApplyWatermark

/-! ## C10 -/

lemma processFiles_frame (pdftk : Option String) (args : Args) (w : WEnv) (p : String) :
    ∀ (files : List String) (fs : FS) (msgs : List Msg),
      (∀ f ∈ files, ∀ name,
        template_substitute args.output_template (tmplParams f) = .ok name →
        p ≠ outPath args name) →
      (processFiles pdftk args w files fs msgs).fs p = fs p := by
  intro files
  induction files with
  | nil =>
    intro fs msgs _
    rfl
  | cons f rest ih =>
    intro fs msgs h
    cases hw : watermark_document fs w.tool f args.watermark pdftk with
    | valueError => simp [processFiles, hw]
    | uncaught e => simp [processFiles, hw]
    | calledProcessError c se n => simp [processFiles, hw]
    | ok signed =>
      cases hs : template_substitute args.output_template (tmplParams f) with
      | error e => simp [processFiles, hw, hs]
      | ok name =>
        have hp : p ≠ outPath args name := h f (by simp) name hs
        have hrest : ∀ f2 ∈ rest, ∀ name2,
            template_substitute args.output_template (tmplParams f2) = .ok name2 →
            p ≠ outPath args name2 :=
          fun f2 hf2 name2 hs2 => h f2 (List.mem_cons_of_mem f hf2) name2 hs2
        cases hwr : w.write (outPath args name) with
        | ok =>
          have hrec := ih (updateFS fs (outPath args name) signed)
            (msgs ++ [.success (outPath args name)]) hrest
          simp [processFiles, hw, hs, hwr, hrec, updateFS, hp]
        | openFail => simp [processFiles, hw, hs, hwr]
        | writeFail k => simp [processFiles, hw, hs, hwr, updateFS, hp]

def c10args : Args := ⟨["d/a.pdf"], "wm.pdf", "d", "${stem}${suffix}", false, false⟩

def c10fs : FS := fsOf [("d/a.pdf", [1, 2]), ("wm.pdf", [9])]

def c10w : WEnv := ⟨c10fs, fun _ _ => .launched ⟨0, [7, 7], []⟩, writeAllOk, false, .cancelled⟩

/-- C10 counterexample: with output folder `d` and template
`${stem}${suffix}`, the computed output path of source document `d/a.pdf`
is `d/a.pdf` itself, and a successful run overwrites the source document
with the stamped bytes — so the byte contents of input documents are not
unchanged after every run. -/
theorem c10_counterexample :
    (main env0 c10args (some "/z") (some "pdftk") c10w).fs "d/a.pdf" = some [7, 7]
    ∧ c10fs "d/a.pdf" = some [1, 2]
    ∧ (some ([7, 7] : Bytes)) ≠ (some ([1, 2] : Bytes))
    ∧ (main env0 c10args (some "/z") (some "pdftk") c10w).exit = .code 0 :=
  ⟨rfl, rfl, by decide, rfl⟩

/-- C10 amended: the readability probes and the stdin feed open the
sources and the watermark read-only — in the model, a command-line run
modifies the file system only at computed output paths: any path that is
not the output path of one of the batch documents (in particular every
source document and the watermark, whenever no computed output path
collides with them) retains its exact previous content. -/
theorem c10_writes_only_output_paths (cenv : Env) (args : Args)
    (zenity pdftk : Option String) (w : WEnv) (p : String)
    (hg : args.gui = false)
    (h : ∀ f ∈ args.file, ∀ name,
        template_substitute args.output_template (tmplParams f) = .ok name →
        p ≠ outPath args name) :
    (main cenv args zenity pdftk w).fs p = w.fs p := by
  by_cases hd : args.dump_default_config
  · simp [main, hd]
  · by_cases hf : args.file.isEmpty
    · simp [main, hd, hg, hf]
    · have hmain : main cenv args zenity pdftk w = afterGate args pdftk w := by
        simp [main, hd, hg, hf]
      rw [hmain]
      cases pdftk with
      | none => simp [afterGate, hg]
      | some pk =>
        cases hwm : w.fs args.watermark with
        | none => simp [afterGate, afterPdftkCheck, hwm]
        | some wmb =>
          have hrw : afterGate args (some pk) w
              = processFiles (some pk) args w args.file w.fs [] := by
            simp [afterGate, afterPdftkCheck, hwm, hg]
          rw [hrw]
          exact processFiles_frame (some pk) args w p args.file w.fs [] h

def c10wfs : FS := fsOf [("a.pdf", [1]), ("wm.pdf", [9])]

def c10wEnv : WEnv := ⟨c10wfs, toolOk, writeAllOk, false, .cancelled⟩

/-- Witness for C10: in a concrete successful run, the source document
`a.pdf` (whose output path is `out/a_watermark.pdf`) keeps its content. -/
theorem c10_writes_only_output_paths_witness :
    (main env0 ⟨["a.pdf"], "wm.pdf", "out", "${stem}_watermark${suffix}", false, false⟩
      (some "/z") (some "pdftk") c10wEnv).fs "a.pdf" = c10wEnv.fs "a.pdf" :=
  c10_writes_only_output_paths env0
    ⟨["a.pdf"], "wm.pdf", "out", "${stem}_watermark${suffix}", false, false⟩
    (some "/z") (some "pdftk") c10wEnv "a.pdf" rfl
    (by
      intro f hf name hs
      simp only [List.mem_singleton] at hf
      subst hf
      have hsub : template_substitute "${stem}_watermark${suffix}" (tmplParams "a.pdf")
          = .ok "a_watermark.pdf" := rfl
      rw [hsub] at hs
      injection hs with hname
      subst hname
      decide)

end ApplyWatermark
